import Mathlib

/-!
Shallow embedding of `tmt/steps/provision/beaker-mrack.py`: the Python
string helpers the plugin relies on, the hardware-size parser
(`TmtBeakerTransformer._parse_memory`), the distro/variant resolution
(`TmtBeakerTransformer._get_distro_and_variant`), the status
classification inside `GuestBeaker._create.get_new_state`, the
create/poll/cleanup run of `GuestBeaker._create`, the user-data parsing
of `ProvisionBeaker.go`, and `GuestBeaker.remove`.
-/

deriving instance DecidableEq for Except

namespace BeakerMrack

/-! ### Python string built-ins (ASCII), modelled as used by the plugin -/

/-- ASCII decimal digit, as Python's int() accepts. -/
def isAsciiDigit (c : Char) : Bool := decide (48 ≤ c.toNat ∧ c.toNat ≤ 57)

/-- ASCII letter: the cased characters of the plugin's ASCII inputs. -/
def isAsciiLetter (c : Char) : Bool :=
  decide ((65 ≤ c.toNat ∧ c.toNat ≤ 90) ∨ (97 ≤ c.toNat ∧ c.toNat ≤ 122))

/-- ASCII lowercase letter. -/
def isAsciiLower (c : Char) : Bool := decide (97 ≤ c.toNat ∧ c.toNat ≤ 122)

/-- Whitespace stripped by Python's str.strip(). -/
def isPyWhitespace (c : Char) : Bool :=
  decide (c = ' ' ∨ c = '\t' ∨ c = '\n' ∨ c = '\r' ∨ c.toNat = 11 ∨ c.toNat = 12)

/-- Value of a list of decimal digit characters, most significant first. -/
def digitsToNat (l : List Char) : Nat := l.foldl (fun a c => a * 10 + (c.toNat - 48)) 0

/-- Digit-run parsing shared by the signed/unsigned cases of int(). -/
def pyIntCore (l : List Char) : Option Nat :=
  if l.isEmpty then none
  else if l.all isAsciiDigit then some (digitsToNat l) else none

/-- Python int(token) on a character list: optional sign, then digits. -/
def pyIntList : List Char → Option Int
  | [] => none
  | c :: rest =>
    if c = '-' then (pyIntCore rest).map (fun n => -(n : Int))
    else if c = '+' then (pyIntCore rest).map (fun n => (n : Int))
    else (pyIntCore (c :: rest)).map (fun n => (n : Int))

/-- Python int(token); none models the ValueError the plugin catches. -/
def pyInt (s : String) : Option Int := pyIntList s.data

/-- Python str.isupper(): at least one cased character and no lowercase one. -/
def pyIsUpper (s : String) : Bool :=
  s.data.any isAsciiLetter && s.data.all (fun c => !(isAsciiLower c))

/-- Python str.strip(): drop leading and trailing whitespace. -/
def pyStrip (s : String) : String :=
  String.mk (((s.data.dropWhile isPyWhitespace).reverse.dropWhile isPyWhitespace).reverse)

/-- Python str.split(sep) for a one-character separator, on character lists:
splits at every occurrence and keeps empty pieces. -/
def pySplitChar (sep : Char) : List Char → List (List Char)
  | [] => [[]]
  | c :: rest =>
    let r := pySplitChar sep rest
    if c = sep then [] :: r
    else
      match r with
      | [] => [[c]]
      | h :: t => (c :: h) :: t

/-- Python str.split(sep) for a one-character separator. -/
def pySplit (s : String) (sep : Char) : List String :=
  (pySplitChar sep s.data).map String.mk

/-- Split a character list at its first equals sign, if any. -/
def splitFirstEq : List Char → Option (List Char × List Char)
  | [] => none
  | c :: rest =>
    if c = '=' then some ([], rest)
    else (splitFirstEq rest).map (fun p => (c :: p.1, p.2))

/-- Python pair.split with separator equals sign and maxsplit one, as used by
ProvisionBeaker.go: one piece when no equals sign occurs, else two. -/
def pySplitOnceEq (s : String) : List String :=
  match splitFirstEq s.data with
  | none => [s]
  | some (a, b) => [String.mk a, String.mk b]

/-! ### Hardware size parsing: `size_translation` and `_parse_memory` -/

/-- The module-level size_translation table: unit name to its factor with MB
as the normalization base. -/
def size_translation : List (String × Int) := [("TB", 1048576), ("GB", 1024), ("MB", 1)]

/-- Python exceptions that escape `_parse_memory` uncaught. -/
inductive PyErr where
  | keyError (key : String)
  | typeError
  deriving DecidableEq

/-- The chunk loop of `_parse_memory`: each chunk is tried as int(chunk),
an all-uppercase non-numeric chunk is looked up in size_translation and
multiplied into the amount (KeyError on a missing unit, TypeError when no
amount was seen yet), and any other chunk becomes the operator. -/
def parseMemChunks : List String → Option Int → Option String → Except PyErr (Option Int × Option String)
  | [], amount, oper => .ok (amount, oper)
  | chunk :: rest, amount, oper =>
    match pyInt chunk with
    | some n => parseMemChunks rest (some n) oper
    | none =>
      if pyIsUpper chunk then
        match List.lookup chunk size_translation with
        | none => .error (.keyError chunk)
        | some factor =>
          match amount with
          | none => .error .typeError
          | some a => parseMemChunks rest (some (a * factor)) oper
      else
        parseMemChunks rest amount (some chunk)

/-- TmtBeakerTransformer._parse_memory: split the expression on single
spaces, run the chunk loop, and default a missing (or empty) operator
to the equals sign. -/
def parse_memory (mem_string : String) : Except PyErr (String × Option Int) :=
  match parseMemChunks (pySplit mem_string ' ') none none with
  | .error e => .error e
  | .ok (amount, oper) =>
    let operator :=
      match oper with
      | none => "="
      | some o => if o = "" then "=" else o
    .ok (operator, amount)

/-- Normalization factor of a unit, read off the size_translation table. -/
def unitFactor (u : String) : Int := (List.lookup u size_translation).getD 0

/-! ### Status classification and the provisioning run of `GuestBeaker._create` -/

/-- The fields of the recipe-info dict that `get_new_state` reads; an empty
`system` models a falsy (absent) system field. -/
structure InspectResponse where
  id : String
  system : String
  status : String
  deriving DecidableEq

/-- Result of one poll inside `get_new_state`: a raised ProvisionError with
its message, a returned response (status Reserved), or the raised
WaitingIncomplete that keeps the wait loop going. -/
inductive PollStep where
  | fatal (msg : String)
  | done (r : InspectResponse)
  | incomplete
  deriving DecidableEq

/-- Module constant GUEST_STATE_COLOR_DEFAULT. -/
def GUEST_STATE_COLOR_DEFAULT : String := "green"

/-- Module table GUEST_STATE_COLORS. -/
def GUEST_STATE_COLORS : List (String × String) :=
  [("Reserved", "green"), ("New", "blue"), ("Scheduled", "blue"), ("Queued", "cyan"),
   ("Processed", "cyan"), ("Waiting", "magenta"), ("Installing", "magenta"),
   ("Cancelled", "yellow"), ("Aborted", "yellow"), ("Running", "green"),
   ("Completed", "green")]

/-- Display hint for a state: GUEST_STATE_COLORS.get(state, default). Purely
decorative, no effect on control flow. -/
def stateColor (state : String) : String :=
  (List.lookup state GUEST_STATE_COLORS).getD GUEST_STATE_COLOR_DEFAULT

/-- The per-poll guestname update in `get_new_state`: response id when the
system field is falsy, else the system field. -/
def updatedGuestname (r : InspectResponse) : String :=
  if r.system = "" then r.id else r.system

/-- GuestBeaker._create.get_new_state, status handling: "Aborted" raises a
ProvisionError carrying the raw status; a status in the literal set of the
two strings "Error, Aborted" and "Cancelled" raises a ProvisionError without
the raw status; "Reserved" returns the response; every other status raises
WaitingIncomplete. -/
def get_new_state (r : InspectResponse) : PollStep :=
  if r.status = "Aborted" then
    .fatal ("Failed to create, unhandled API response '" ++ r.status ++ "'.")
  else if r.status = "Error, Aborted" ∨ r.status = "Cancelled" then
    .fatal "Failed to create, provisioning failed."
  else if r.status = "Reserved" then
    .done r
  else
    .incomplete

/-- The backend collaborator of one `_create` run: what `api.create` yields
(an exception, a falsy response, or a recipe info), what `api.inspect`
yields on the k-th poll, and whether `api.delete` succeeds or raises. -/
structure Backend where
  createResult : Except String (Option InspectResponse)
  inspectAt : Nat → InspectResponse
  deleteResult : Except String Unit

/-- Result of the wait loop: a returned value, a stop exception raised by
the check, or WaitingTimedOutError. -/
inductive WaitOutcome where
  | complete (r : InspectResponse)
  | fatal (msg : String)
  | timedOut
  deriving DecidableEq

/-- Modelled from the spec: tmt.utils.wait is code of this repository that
is not under src/. Per the spec's poll-until-timeout contract, the check
runs once per tick until elapsed time reaches the timeout, a fatal result
or a completed result stops the loop, and reaching the timeout yields
WaitingTimedOutError after the ceiling of timeout over tick polls. The
fuel argument only makes the recursion structural; it never runs out when
the tick is positive. -/
def waitLoop (check : Nat → PollStep) (timeout tick : Nat) : Nat → Nat → WaitOutcome
  | _, 0 => .timedOut
  | k, fuel + 1 =>
    if timeout ≤ k * tick then .timedOut
    else
      match check k with
      | .done r => .complete r
      | .fatal m => .fatal m
      | .incomplete => waitLoop check timeout tick (k + 1) fuel

/-- Modelled from the spec: tmt.utils.wait entry point (see waitLoop). -/
def wait (check : Nat → PollStep) (timeout tick : Nat) : WaitOutcome :=
  waitLoop check timeout tick 0 (timeout + 1)

/-- Outcome of a `_create` run as the caller sees it: a provisioned address,
a ProvisionError raised by the plugin, or an exception from the backend
facade propagating uncaught. -/
inductive Outcome where
  | provisioned (address : String)
  | provisionError (msg : String)
  | backendError (msg : String)
  deriving DecidableEq

/-- The ProvisionError message raised on timeout; it embeds the configured
provision_timeout value. -/
def timeoutMessage (provision_timeout : Nat) : String :=
  "Failed to provision in the given amount of time (--provision-timeout=" ++
    (toString provision_timeout ++ ").")

/-- The ProvisionError message raised on a falsy create response (the
interpolated repr of the falsy response is abstracted away). -/
def createFailedMessage : String := "Failed to create, response: ''."

/-- GuestBeaker._create as one run against a backend: api.create first (an
exception propagates with no cleanup, a falsy response raises a
ProvisionError with no cleanup), then the wait loop over get_new_state; a
fatal poll raises its ProvisionError with no delete call, success returns
the system address with no delete call, and a timeout calls api.delete
exactly once and then raises the timeout ProvisionError — an exception
raised by that delete call propagates instead, uncaught. The second
component counts the delete calls issued. -/
def guest_create (b : Backend) (provision_timeout provision_tick : Nat) : Outcome × Nat :=
  match b.createResult with
  | .error e => (.backendError e, 0)
  | .ok none => (.provisionError createFailedMessage, 0)
  | .ok (some _) =>
    match wait (fun k => get_new_state (b.inspectAt k)) provision_timeout provision_tick with
    | .complete r => (.provisioned r.system, 0)
    | .fatal m => (.provisionError m, 0)
    | .timedOut =>
      match b.deleteResult with
      | .error e => (.backendError e, 1)
      | .ok _ => (.provisionError (timeoutMessage provision_timeout), 1)

/-- The state GuestBeaker.remove consults. -/
structure GuestState where
  guestname : Option String
  guest : Option String
  deriving DecidableEq

/-- GuestBeaker.remove: return at once when guestname is unset, otherwise
call api.delete (whose exception, if any, propagates). The count is the
number of delete calls issued. -/
def remove (g : GuestState) (b : Backend) : Except String (GuestState × Nat) :=
  match g.guestname with
  | none => .ok (g, 0)
  | some _ =>
    match b.deleteResult with
    | .error e => .error e
    | .ok _ => .ok (g, 1)

/-! ### Distro and variant resolution: `_get_distro_and_variant` -/

/-- The provisioning configuration read by the transformer: the distros
mapping used for distro resolution and the optional distro_variants table. -/
structure MrackConfig where
  distros : List (String × String)
  distro_variants : Option (List (String × String))

/-- The environment dict: its os sub-dict and its other top-level
string-valued entries. -/
structure EnvDict where
  os : List (String × String)
  top : List (String × String)

/-- Modelled from the spec: mrack's _find_value is code outside this
repository. Per the spec's distro resolution, an explicitly declared distro
of the environment wins, otherwise the configured distros mapping applied
to the compose, otherwise the compose itself (the default argument). -/
def find_value (env : EnvDict) (cfg : MrackConfig) (compose : Option String) : Option String :=
  match List.lookup "distro" env.top with
  | some d => some d
  | none =>
    match compose with
    | none => none
    | some c => some ((List.lookup c cfg.distros).getD c)

/-- Result of `_get_distro_and_variant`: the returned pair, or a KeyError
raised by a dict subscript. -/
inductive DvResult where
  | ok (distro : Option String) (variant : Option String)
  | keyError (key : String)
  deriving DecidableEq

/-- TmtBeakerTransformer._get_distro_and_variant: compose from the os dict,
required_distro through _find_value, then the variant: when the key
"beaker_variant" is in the os dict the code subscripts the *top-level*
environment dict with it (KeyError when absent there); otherwise a truthy
distro_variants table is consulted at required_distro with the table's
"default" entry as fallback; otherwise the variant is "Server". -/
def get_distro_and_variant (cfg : MrackConfig) (env : EnvDict) : DvResult :=
  let compose := List.lookup "compose" env.os
  let required_distro := find_value env cfg compose
  if (List.lookup "beaker_variant" env.os).isSome then
    match List.lookup "beaker_variant" env.top with
    | some v => .ok required_distro (some v)
    | none => .keyError "beaker_variant"
  else
    match cfg.distro_variants with
    | some table =>
      if table.isEmpty then .ok required_distro (some "Server")
      else
        .ok required_distro
          (match required_distro with
           | some k =>
             match List.lookup k table with
             | some v => some v
             | none => List.lookup "default" table
           | none => List.lookup "default" table)
    | none => .ok required_distro (some "Server")

/-! ### User-data parsing in `ProvisionBeaker.go` -/

/-- The stripped key/value pair one user-data element yields (total helper;
the no-equals case never reaches the dict in the source). -/
def stripPair (s : String) : String × String :=
  match splitFirstEq s.data with
  | none => (pyStrip s, "")
  | some (a, b) => (pyStrip (String.mk a), pyStrip (String.mk b))

/-- The user-data dict comprehension of ProvisionBeaker.go: each element is
split at its first equals sign and both halves stripped; an element with no
equals sign fails the unpacking with ValueError, which go turns into the
ProvisionError "Cannot parse user-data.". -/
def parse_user_data : List String → Except String (List (String × String))
  | [] => .ok []
  | pair :: rest =>
    match pySplitOnceEq pair with
    | [key, value] =>
      match parse_user_data rest with
      | .error e => .error e
      | .ok m => .ok ((pyStrip key, pyStrip value) :: m)
    | _ => .error "Cannot parse user-data."

/-- The guest data assembled by go, restricted to the user_data field the
parse fills in (the other fields are verbatim option reads). -/
structure GoData where
  user_data : List (String × String)
  deriving DecidableEq

/-- ProvisionBeaker.go, user-data handling: parse the raw user-data list and
store the mapping in the guest data, or raise the ProvisionError. -/
def go (raw_user_data : List String) : Except String GoData :=
  match parse_user_data raw_user_data with
  | .error e => .error e
  | .ok m => .ok { user_data := m }

/-! ### Helper lemmas -/

/-- A nonempty all-digit token parses under int() to its decimal value. -/
theorem pyInt_digits (l : List Char) (h1 : l ≠ []) (h2 : l.all isAsciiDigit = true) :
    pyInt (String.mk l) = some ((digitsToNat l : Nat) : Int) := by
  match l, h1 with
  | c :: rest, _ =>
    have hc : isAsciiDigit c = true := (List.all_eq_true.mp h2) c (List.mem_cons_self c rest)
    have hcm : c ≠ '-' := by
      intro h
      rw [h] at hc
      exact absurd hc (by decide)
    have hcp : c ≠ '+' := by
      intro h
      rw [h] at hc
      exact absurd hc (by decide)
    show pyIntList (c :: rest) = _
    rw [pyIntList, if_neg hcm, if_neg hcp]
    simp [pyIntCore, h2]

/-- The wait loop times out when every poll before the deadline is
incomplete and the fuel covers the deadline. -/
theorem waitLoop_timedOut (check : Nat → PollStep) (timeout tick : Nat)
    (h : ∀ j, j * tick < timeout → check j = .incomplete) :
    ∀ (fuel k : Nat), timeout ≤ k * tick + fuel * tick →
      waitLoop check timeout tick k fuel = .timedOut := by
  intro fuel
  induction fuel with
  | zero => intro k _; rfl
  | succ m ih =>
    intro k hk
    rw [waitLoop]
    by_cases hle : timeout ≤ k * tick
    · rw [if_pos hle]
    · rw [if_neg hle]
      rw [h k (Nat.lt_of_not_le hle)]
      apply ih (k + 1)
      rw [Nat.succ_mul]
      rw [Nat.succ_mul] at hk
      omega

/-- The wait entry point times out under the same conditions, given a
positive tick. -/
theorem wait_timedOut (check : Nat → PollStep) (timeout tick : Nat) (htick : 1 ≤ tick)
    (h : ∀ j, j * tick < timeout → check j = .incomplete) :
    wait check timeout tick = .timedOut := by
  rw [wait]
  apply waitLoop_timedOut check timeout tick h (timeout + 1) 0
  have h2 : (timeout + 1) * 1 ≤ (timeout + 1) * tick := Nat.mul_le_mul_left (timeout + 1) htick
  rw [Nat.mul_one] at h2
  omega

/-! ### C1: unknown status strings keep the run waiting -/

/-- C1: a raw backend status outside the classifier's recognized vocabulary
(the success status "Reserved" and the terminal-failure triggers "Aborted",
"Error, Aborted" and "Cancelled") classifies to the keep-waiting result:
the poll neither returns success nor raises a provisioning failure. -/
theorem c1_unknown_status_keeps_waiting (r : InspectResponse)
    (h : r.status ∉ (["Aborted", "Error, Aborted", "Cancelled", "Reserved"] : List String)) :
    get_new_state r = .incomplete := by
  simp only [List.mem_cons, List.not_mem_nil, or_false, not_or] at h
  obtain ⟨h1, h2, h3, h4⟩ := h
  rw [get_new_state, if_neg h1, if_neg (by tauto), if_neg h4]

/-- C1 witness: a made-up status string is classified as keep-waiting. -/
theorem c1_unknown_status_keeps_waiting_witness :
    get_new_state { id := "J1", system := "", status := "Borked" } = .incomplete :=
  c1_unknown_status_keeps_waiting { id := "J1", system := "", status := "Borked" } (by decide)

/-! ### C2: terminal-failure statuses (code bug at "Error" and "Cancelled") -/

/-- Mock backend for C2 whose inspect always reports the status "Error". -/
def errorStatusMock : Backend where
  createResult := .ok (some { id := "J1", system := "", status := "Error" })
  inspectAt := fun _ => { id := "J1", system := "", status := "Error" }
  deleteResult := .ok ()

/-- C2: evaluation of the code at the claim's inputs. The status "Error" is
classified keep-waiting (the source's membership test uses the two-element
set of the literal strings "Error, Aborted" and "Cancelled", so "Error"
matches nothing), and a run whose backend always reports "Error" ends in
the timeout error, not a provider-reported failure; "Cancelled" does fail
the run but its error carries no raw status; only "Aborted" fails the run
with the raw status embedded. -/
theorem c2_terminal_status_divergence :
    get_new_state { id := "J1", system := "", status := "Error" } = .incomplete
    ∧ guest_create errorStatusMock 3 1 = (.provisionError (timeoutMessage 3), 1)
    ∧ get_new_state { id := "J1", system := "", status := "Cancelled" } =
        .fatal "Failed to create, provisioning failed."
    ∧ get_new_state { id := "J1", system := "", status := "Aborted" } =
        .fatal "Failed to create, unhandled API response 'Aborted'." := by
  refine ⟨rfl, rfl, rfl, rfl⟩

/-! ### C10: remove with no guestname is a no-op -/

/-- C10: calling remove on a guest whose guestname is unset returns at once
without issuing a delete call, without raising, and with the guest state
unchanged. -/
theorem c10_remove_unset_guestname_noop (g : GuestState) (b : Backend)
    (h : g.guestname = none) :
    remove g b = .ok (g, 0) := by
  rw [remove, h]

/-- C10 witness: a concrete unprovisioned guest against a backend whose
delete would even raise. -/
theorem c10_remove_unset_guestname_noop_witness :
    remove { guestname := none, guest := none }
        { createResult := .ok none, inspectAt := fun _ => { id := "", system := "", status := "" },
          deleteResult := .error "boom" } =
      .ok ({ guestname := none, guest := none }, 0) :=
  c10_remove_unset_guestname_noop _ _ rfl

/-! ### Chunk-loop evaluation lemmas for `_parse_memory` -/

/-- Chunk loop on operator, amount, unit: the operator token is neither
numeric nor uppercase, the amount token is numeric, and the unit token is
uppercase with a known factor. -/
theorem parseMemChunks_op_num_unit (w a u : String) (n f : Int)
    (hw1 : pyInt w = none) (hw2 : pyIsUpper w = false)
    (ha : pyInt a = some n)
    (hu1 : pyInt u = none) (hu2 : pyIsUpper u = true)
    (hf : List.lookup u size_translation = some f) :
    parseMemChunks [w, a, u] none none = .ok (some (n * f), some w) := by
  simp [parseMemChunks, hw1, hw2, ha, hu1, hu2, hf]

/-- Chunk loop on amount then unit, with no operator token. -/
theorem parseMemChunks_num_unit (a u : String) (n f : Int)
    (ha : pyInt a = some n)
    (hu1 : pyInt u = none) (hu2 : pyIsUpper u = true)
    (hf : List.lookup u size_translation = some f) :
    parseMemChunks [a, u] none none = .ok (some (n * f), none) := by
  simp [parseMemChunks, ha, hu1, hu2, hf]

/-- Chunk loop on amount then an uppercase token that is no known unit:
the lookup into size_translation raises KeyError. -/
theorem parseMemChunks_num_badunit (a u : String) (n : Int)
    (ha : pyInt a = some n)
    (hu1 : pyInt u = none) (hu2 : pyIsUpper u = true)
    (hf : List.lookup u size_translation = none) :
    parseMemChunks [a, u] none none = .error (.keyError u) := by
  simp [parseMemChunks, ha, hu1, hu2, hf]

/-- Chunk loop on amount then a non-numeric token that is not uppercase:
the token silently becomes the operator. -/
theorem parseMemChunks_num_lowertoken (a w : String) (n : Int)
    (ha : pyInt a = some n)
    (hw1 : pyInt w = none) (hw2 : pyIsUpper w = false) :
    parseMemChunks [a, w] none none = .ok (some n, some w) := by
  simp [parseMemChunks, ha, hw1, hw2]

/-! ### C4: well-formed size expressions parse as claimed -/

/-- C4: a size expression whose space-separated tokens are an operator from
the claimed set, a nonempty decimal amount and a unit from MB, GB, TB
parses to that operator and the amount scaled by the unit's factor (MB
base); with the operator token absent the operator defaults to the equals
sign. -/
theorem c4_size_expression_parses :
    (∀ (s w a u : String), pySplit s ' ' = [w, a, u] →
        w ∈ (["=", "!=", "<", "<=", ">", ">="] : List String) →
        a.data ≠ [] → a.data.all isAsciiDigit = true →
        u ∈ (["MB", "GB", "TB"] : List String) →
        parse_memory s = .ok (w, some ((digitsToNat a.data : Int) * unitFactor u)))
  ∧ (∀ (s a u : String), pySplit s ' ' = [a, u] →
        a.data ≠ [] → a.data.all isAsciiDigit = true →
        u ∈ (["MB", "GB", "TB"] : List String) →
        parse_memory s = .ok ("=", some ((digitsToNat a.data : Int) * unitFactor u))) := by
  constructor
  · intro s w a u hsplit hw hane hadig hu
    have ha : pyInt a = some ((digitsToNat a.data : Int)) := pyInt_digits a.data hane hadig
    have hw1 : pyInt w = none := by fin_cases hw <;> rfl
    have hw2 : pyIsUpper w = false := by fin_cases hw <;> rfl
    have hwne : w ≠ "" := by fin_cases hw <;> decide
    have hu1 : pyInt u = none := by fin_cases hu <;> rfl
    have hu2 : pyIsUpper u = true := by fin_cases hu <;> rfl
    have hf : List.lookup u size_translation = some (unitFactor u) := by fin_cases hu <;> rfl
    rw [parse_memory, hsplit, parseMemChunks_op_num_unit w a u _ _ hw1 hw2 ha hu1 hu2 hf]
    simp [hwne]
  · intro s a u hsplit hane hadig hu
    have ha : pyInt a = some ((digitsToNat a.data : Int)) := pyInt_digits a.data hane hadig
    have hu1 : pyInt u = none := by fin_cases hu <;> rfl
    have hu2 : pyIsUpper u = true := by fin_cases hu <;> rfl
    have hf : List.lookup u size_translation = some (unitFactor u) := by fin_cases hu <;> rfl
    rw [parse_memory, hsplit, parseMemChunks_num_unit a u _ _ ha hu1 hu2 hf]

/-- C4 witness: the spec's example expression with and without the
operator token. -/
theorem c4_size_expression_parses_witness :
    parse_memory ">= 8 GB" = .ok (">=", some 8192)
    ∧ parse_memory "8 GB" = .ok ("=", some 8192) := by
  constructor
  · exact c4_size_expression_parses.1 ">= 8 GB" ">=" "8" "GB" rfl (by decide)
      (by decide) (by decide) (by decide)
  · exact c4_size_expression_parses.2 "8 GB" "8" "GB" rfl (by decide) (by decide) (by decide)

/-! ### C3: unparsable tokens (corrected: lowercase garbage is silently kept) -/

/-- C3 counterexample: a size expression with an unparsable token does not
fail translation; the non-numeric lowercase token is silently taken as the
comparison operator. -/
theorem c3_counterexample_silent_reinterpretation :
    parse_memory "10 bananas" = .ok ("bananas", some 10) := by decide

/-- Chunk loop on a non-uppercase non-numeric token and then a known unit:
the first token becomes the operator, and the unit's multiplication then
hits an absent amount, raising TypeError. -/
theorem parseMemChunks_lower_then_unit (w u : String) (f : Int)
    (hw1 : pyInt w = none) (hw2 : pyIsUpper w = false)
    (hu1 : pyInt u = none) (hu2 : pyIsUpper u = true)
    (hf : List.lookup u size_translation = some f) :
    parseMemChunks [w, u] none none = .error .typeError := by
  simp [parseMemChunks, hw1, hw2, hu1, hu2, hf]

/-- The chunk loop can fail only at an uppercase chunk: every error it
returns (KeyError or TypeError) arises inside the isupper branch. -/
theorem parseMemChunks_error_has_upper (chunks : List String) :
    ∀ (amount : Option Int) (oper : Option String) (e : PyErr),
      parseMemChunks chunks amount oper = .error e →
      ∃ c ∈ chunks, pyIsUpper c = true := by
  induction chunks with
  | nil =>
    intro amount oper e h
    rw [parseMemChunks] at h
    exact Except.noConfusion h
  | cons c rest ih =>
    intro amount oper e h
    rw [parseMemChunks] at h
    split at h
    · obtain ⟨d, hd, hup⟩ := ih _ _ _ h
      exact ⟨d, List.mem_cons_of_mem c hd, hup⟩
    · by_cases hup : pyIsUpper c = true
      · exact ⟨c, List.mem_cons_self c rest, hup⟩
      · rw [if_neg hup] at h
        obtain ⟨d, hd, hup2⟩ := ih _ _ _ h
        exact ⟨d, List.mem_cons_of_mem c hd, hup2⟩

/-- Translation fails only when some space-separated token of the
expression is uppercase: the operator branch taken by every other
non-numeric token never raises. -/
theorem parse_memory_error_has_upper (s : String) (e : PyErr)
    (h : parse_memory s = .error e) :
    ∃ c ∈ pySplit s ' ', pyIsUpper c = true := by
  apply parseMemChunks_error_has_upper (pySplit s ' ') none none e
  rw [parse_memory] at h
  cases hpc : parseMemChunks (pySplit s ' ') none none with
  | error e2 =>
    rw [hpc] at h
    have h2 : (Except.error e2 : Except PyErr (String × Option Int)) = Except.error e := h
    have h3 : e2 = e := by injection h2
    rw [h3]
  | ok p =>
    obtain ⟨amt, op⟩ := p
    rw [hpc] at h
    cases op with
    | none =>
      have h2 : (Except.ok ("=", amt) : Except PyErr (String × Option Int)) =
          Except.error e := h
      exact Except.noConfusion h2
    | some o =>
      have h2 : (Except.ok ((if o = "" then "=" else o), amt) :
          Except PyErr (String × Option Int)) = Except.error e := h
      exact Except.noConfusion h2

/-- C3 amended: translation does not fail on every unparsable token, and
never with a dedicated parse error. A non-numeric token that is not
uppercase is silently taken as the comparison operator, never failing by
itself; translation fails only at uppercase tokens, via uncaught Python
exceptions: KeyError for an uppercase token outside the size_translation
table, TypeError for a known unit reached before any numeric amount. -/
theorem c3_amended_failure_characterization :
    (∀ (s : String) (e : PyErr), parse_memory s = .error e →
        ∃ c ∈ pySplit s ' ', pyIsUpper c = true)
  ∧ (∀ (s a w : String), pySplit s ' ' = [a, w] →
        a.data ≠ [] → a.data.all isAsciiDigit = true →
        pyInt w = none → pyIsUpper w = false → w ≠ "" →
        parse_memory s = .ok (w, some ((digitsToNat a.data : Int))))
  ∧ (∀ (s a u : String), pySplit s ' ' = [a, u] →
        a.data ≠ [] → a.data.all isAsciiDigit = true →
        pyInt u = none → pyIsUpper u = true → List.lookup u size_translation = none →
        parse_memory s = .error (.keyError u))
  ∧ (∀ (s w u : String) (f : Int), pySplit s ' ' = [w, u] →
        pyInt w = none → pyIsUpper w = false →
        pyInt u = none → pyIsUpper u = true → List.lookup u size_translation = some f →
        parse_memory s = .error .typeError) := by
  refine ⟨parse_memory_error_has_upper, ?_, ?_, ?_⟩
  · intro s a w hsplit hane hadig hw1 hw2 hne
    have ha : pyInt a = some ((digitsToNat a.data : Int)) := pyInt_digits a.data hane hadig
    rw [parse_memory, hsplit, parseMemChunks_num_lowertoken _ _ _ ha hw1 hw2]
    simp [hne]
  · intro s a u hsplit hane hadig hu1 hu2 hf
    have ha : pyInt a = some ((digitsToNat a.data : Int)) := pyInt_digits a.data hane hadig
    rw [parse_memory, hsplit, parseMemChunks_num_badunit _ _ _ ha hu1 hu2 hf]
  · intro s w u f hsplit hw1 hw2 hu1 hu2 hf
    rw [parse_memory, hsplit, parseMemChunks_lower_then_unit w u f hw1 hw2 hu1 hu2 hf]

/-- C3 amended witness: a non-numeric lowercase token silently becomes the
operator; an unknown uppercase unit raises KeyError (at an uppercase
token, as the first conjunct requires); a known unit with a non-numeric
amount raises TypeError. -/
theorem c3_amended_failure_characterization_witness :
    (∃ c ∈ pySplit "10 PB" ' ', pyIsUpper c = true)
    ∧ parse_memory "5 stuff" = .ok ("stuff", some 5)
    ∧ parse_memory "10 PB" = .error (.keyError "PB")
    ∧ parse_memory "x MB" = .error .typeError := by
  refine ⟨?_, ?_, ?_, ?_⟩
  · exact c3_amended_failure_characterization.1 "10 PB" (.keyError "PB") (by decide)
  · exact c3_amended_failure_characterization.2.1 "5 stuff" "5" "stuff" rfl (by decide)
      (by decide) (by decide) (by decide) (by decide)
  · exact c3_amended_failure_characterization.2.2.1 "10 PB" "10" "PB" rfl (by decide)
      (by decide) (by decide) (by decide) (by decide)
  · exact c3_amended_failure_characterization.2.2.2 "x MB" "x" "MB" 1 rfl (by decide)
      (by decide) (by decide) (by decide) (by decide)

/-! ### C5: timeout yields the timeout error and exactly one delete call -/

/-- C5: in a run whose backend never reports a status the classifier
treats as terminal before the timeout elapses (and whose cleanup delete
succeeds), _create issues exactly one delete call and raises the
ProvisionError built from the configured timeout; that message literally
embeds the rendered timeout value. -/
theorem c5_timeout_error_one_delete (b : Backend) (timeout tick : Nat)
    (r0 : InspectResponse)
    (hcreate : b.createResult = .ok (some r0))
    (htick : 1 ≤ tick)
    (hpending : ∀ j, j * tick < timeout → get_new_state (b.inspectAt j) = .incomplete)
    (hdelete : b.deleteResult = .ok ()) :
    guest_create b timeout tick = (.provisionError (timeoutMessage timeout), 1)
    ∧ ∃ pre post, timeoutMessage timeout = pre ++ (toString timeout ++ post) := by
  constructor
  · rw [guest_create, hcreate, wait_timedOut _ _ _ htick hpending, hdelete]
  · exact ⟨"Failed to provision in the given amount of time (--provision-timeout=", ").", rfl⟩

/-- Mock backend for C5 that stays in a queued status forever. -/
def pendingMock : Backend where
  createResult := .ok (some { id := "J5", system := "", status := "Queued" })
  inspectAt := fun _ => { id := "J5", system := "", status := "Queued" }
  deleteResult := .ok ()

/-- C5 witness: the spec's mock run with timeout three and tick one. -/
theorem c5_timeout_error_one_delete_witness :
    guest_create pendingMock 3 1 = (.provisionError (timeoutMessage 3), 1)
    ∧ ∃ pre post, timeoutMessage 3 = pre ++ (toString 3 ++ post) :=
  c5_timeout_error_one_delete pendingMock 3 1
    { id := "J5", system := "", status := "Queued" } rfl (by decide) (fun _ _ => rfl) rfl

/-! ### C6: a failing cleanup delete escalates (corrected) -/

/-- Mock backend for C6 that stays pending and whose delete call raises. -/
def cleanupFailMock : Backend where
  createResult := .ok (some { id := "J6", system := "", status := "Queued" })
  inspectAt := fun _ => { id := "J6", system := "", status := "Queued" }
  deleteResult := .error "Connection refused"

/-- C6 counterexample: with a backend whose timeout-handling delete call
raises, the caller receives the delete failure, not the primary timeout
error the claim promises. -/
theorem c6_counterexample_delete_failure_escalates :
    guest_create cleanupFailMock 3 1 = (.backendError "Connection refused", 1)
    ∧ (Outcome.backendError "Connection refused" ≠ .provisionError (timeoutMessage 3)) := by
  exact ⟨rfl, by decide⟩

/-- C6 amended: when the best-effort delete performed during timeout
handling raises, that cleanup failure propagates to the caller in place of
the timeout error (the source wraps the delete call in no handler); the
timeout error reaches the caller only when the delete call succeeds. -/
theorem c6_amended_delete_failure_propagates (b : Backend) (timeout tick : Nat)
    (r0 : InspectResponse) (e : String)
    (hcreate : b.createResult = .ok (some r0))
    (htick : 1 ≤ tick)
    (hpending : ∀ j, j * tick < timeout → get_new_state (b.inspectAt j) = .incomplete)
    (hdelete : b.deleteResult = .error e) :
    guest_create b timeout tick = (.backendError e, 1) := by
  rw [guest_create, hcreate, wait_timedOut _ _ _ htick hpending, hdelete]

/-- C6 amended witness: the counterexample backend, through the amended
theorem. -/
theorem c6_amended_delete_failure_propagates_witness :
    guest_create cleanupFailMock 3 1 = (.backendError "Connection refused", 1) :=
  c6_amended_delete_failure_propagates cleanupFailMock 3 1
    { id := "J6", system := "", status := "Queued" } "Connection refused"
    rfl (by decide) (fun _ _ => rfl) rfl

/-! ### C7: create failures end the run with zero delete calls -/

/-- C7: when api.create raises a submission error the run ends at once with
that error, and when it returns a falsy response the run ends at once with
the create ProvisionError; in both cases zero delete calls are issued. -/
theorem c7_create_failure_no_delete (b : Backend) (timeout tick : Nat) :
    (∀ e, b.createResult = .error e →
        guest_create b timeout tick = (.backendError e, 0))
    ∧ (b.createResult = .ok none →
        guest_create b timeout tick = (.provisionError createFailedMessage, 0)) := by
  constructor
  · intro e he
    rw [guest_create, he]
  · intro hn
    rw [guest_create, hn]

/-- Mock backend for C7 whose create raises. -/
def submissionErrorMock : Backend where
  createResult := .error "SubmissionError"
  inspectAt := fun _ => { id := "", system := "", status := "" }
  deleteResult := .ok ()

/-- Mock backend for C7 whose create returns a falsy response. -/
def falsyCreateMock : Backend where
  createResult := .ok none
  inspectAt := fun _ => { id := "", system := "", status := "" }
  deleteResult := .ok ()

/-- C7 witness: both create-failure shapes at concrete backends. -/
theorem c7_create_failure_no_delete_witness :
    guest_create submissionErrorMock 3 1 = (.backendError "SubmissionError", 0)
    ∧ guest_create falsyCreateMock 3 1 = (.provisionError createFailedMessage, 0) :=
  ⟨(c7_create_failure_no_delete submissionErrorMock 3 1).1 "SubmissionError" rfl,
   (c7_create_failure_no_delete falsyCreateMock 3 1).2 rfl⟩

/-! ### C8: variant resolution (code bug: mismatched dict check and read) -/

/-- Configuration for the C8 evaluation: no distro_variants table. -/
def c8Config : MrackConfig where
  distros := []
  distro_variants := none

/-- Environment for C8 that declares its variant inside the os dict, where
the code's membership test looks. -/
def c8EnvOsDeclared : EnvDict where
  os := [("compose", "Fedora-35"), ("beaker_variant", "Workstation")]
  top := []

/-- Environment for C8 that declares its variant at the top level of the
environment dict, where the code's subscript reads. -/
def c8EnvTopDeclared : EnvDict where
  os := [("compose", "Fedora-35")]
  top := [("beaker_variant", "Workstation")]

/-- C8: evaluation of the code at the failing inputs. Declaring the variant
where the code checks for it (the os dict) raises KeyError, because the
code then subscripts the top-level environment dict; declaring it where
the code reads it (the top level) makes the check miss, so the declared
variant "Workstation" is silently ignored and the platform default
"Server" is resolved instead. Either way the claimed first tier of the
fallback never uses a declared variant. -/
theorem c8_variant_resolution_divergence :
    get_distro_and_variant c8Config c8EnvOsDeclared = .keyError "beaker_variant"
    ∧ get_distro_and_variant c8Config c8EnvTopDeclared =
        .ok (some "Fedora-35") (some "Server") := by
  exact ⟨rfl, rfl⟩

/-! ### C9: user-data parsing in go -/

/-- Splitting at the first equals sign finds nothing exactly when the list
has no equals sign. -/
theorem splitFirstEq_eq_none (l : List Char) : splitFirstEq l = none ↔ '=' ∉ l := by
  induction l with
  | nil => simp [splitFirstEq]
  | cons c rest ih =>
    by_cases hc : c = '='
    · subst hc
      simp [splitFirstEq]
    · simp [splitFirstEq, hc, ih, Ne.symm hc]

/-- The user-data comprehension raises ValueError (hence the ProvisionError)
when some element has no equals sign. -/
theorem parse_user_data_error (pairs : List String)
    (h : ∃ p ∈ pairs, '=' ∉ p.data) :
    parse_user_data pairs = .error "Cannot parse user-data." := by
  induction pairs with
  | nil => simp at h
  | cons q rest ih =>
    obtain ⟨p, hp, hpe⟩ := h
    rcases List.mem_cons.mp hp with rfl | hmem
    · have hq : splitFirstEq p.data = none := (splitFirstEq_eq_none _).mpr hpe
      rw [parse_user_data, pySplitOnceEq, hq]
    · have hrest := ih ⟨p, hmem, hpe⟩
      rw [parse_user_data, pySplitOnceEq]
      cases hq : splitFirstEq q.data with
      | none => rfl
      | some ab => rw [hrest]

/-- The user-data comprehension, when every element has an equals sign,
yields each element split at its first equals sign with both halves
stripped, in order. -/
theorem parse_user_data_ok (pairs : List String)
    (h : ∀ p ∈ pairs, '=' ∈ p.data) :
    parse_user_data pairs = .ok (pairs.map stripPair) := by
  induction pairs with
  | nil => rfl
  | cons q rest ih =>
    have hq : '=' ∈ q.data := h q (List.mem_cons_self q rest)
    have hne : splitFirstEq q.data ≠ none := by
      rw [Ne, splitFirstEq_eq_none]
      simpa using hq
    obtain ⟨ab, hab⟩ := Option.ne_none_iff_exists'.mp hne
    have hrest := ih (fun p hp => h p (List.mem_cons_of_mem q hp))
    rw [parse_user_data, pySplitOnceEq, hab, hrest]
    simp [stripPair, hab]

/-- C9: go fails with the cannot-parse ProvisionError when some user-data
element contains no equals sign, and otherwise stores in the guest data
the mapping of each element split at its first equals sign with key and
value stripped of surrounding whitespace. -/
theorem c9_go_user_data (pairs : List String) :
    ((∃ p ∈ pairs, '=' ∉ p.data) → go pairs = .error "Cannot parse user-data.")
    ∧ ((∀ p ∈ pairs, '=' ∈ p.data) → go pairs = .ok { user_data := pairs.map stripPair }) := by
  constructor
  · intro h
    rw [go, parse_user_data_error pairs h]
  · intro h
    rw [go, parse_user_data_ok pairs h]

/-- C9 witness: one element without an equals sign fails; elements with an
equals sign are split at the first one and stripped. -/
theorem c9_go_user_data_witness :
    go ["nope"] = .error "Cannot parse user-data."
    ∧ go [" FOO = bar ", "a=b=c"] = .ok { user_data := [("FOO", "bar"), ("a", "b=c")] } := by
  constructor
  · exact (c9_go_user_data ["nope"]).1 ⟨"nope", by decide, by decide⟩
  · have h := (c9_go_user_data [" FOO = bar ", "a=b=c"]).2 (by decide)
    rw [h]
    rfl

end BeakerMrack
